import Mathlib

/-!
# Shallow embedding of the paywow Stellar contracts

This file embeds the five Soroban contracts of the repository
(`payment-processor`, `escrow-manager`, `dispute-resolver`,
`loyalty-program`, `payment-orchestrator`) as pure Lean functions over
explicit state records, and proves properties of the embedded code.

Modelling conventions:
* Soroban `Map<K, V>` instance storage is modelled as `K → Option V`
  (`SMap`), with `set` / `get` / `remove` mirroring the host map.
* `Address` is an abstract identifier modelled as `Nat`; contract
  identifiers (`String` in the source) stay `String`.
* Machine integers are modelled as `Nat` / `Int` with explicit
  `% 2^w` wrapping wherever the source arithmetic can overflow
  (`u32`, `u64`, `u128` wrap in release builds).
* `e.ledger().sequence() as u64` (the logical clock) and
  `require_auth` are modelled by a call context `Ctx` carrying the
  current tick and the set of authorized addresses.
* A contract invocation either returns `.ok` with the new state or
  `.error` with the abort cause.  An `.error` models a Soroban panic:
  the whole invocation (including every nested cross-contract call)
  is rolled back, so no state accompanies an error.
* `panic_with_error!` aborts are modelled by the corresponding error
  enum constructor; `expect` / `expect_err` panics on a missing map
  entry are modelled by the matching not-found error constructor when
  the contract's error enum has one (`EscrowNotFound`,
  `DisputeNotFound`), and by `Err.trap` with the panic message
  otherwise (the orchestrator's "transaction not found" panic).
* `TokenClient.transfer` in this source always returns `Ok(())`
  (its `match` has the single arm `_ => Ok(())`), so token transfers
  never abort; each performed transfer is recorded in a `transfers`
  log so that theorems can talk about money movement.
-/

abbrev Address := Nat

/-- Soroban `Map<K, V>` modelled as a keyed partial function. -/
def SMap (K V : Type) : Type := K → Option V

namespace SMap

def empty {K V : Type} : SMap K V := fun _ => none

def get {K V : Type} (m : SMap K V) (k : K) : Option V := m k

def set {K V : Type} [DecidableEq K] (m : SMap K V) (k : K) (v : V) : SMap K V :=
  fun k' => if k' = k then some v else m k'

def remove {K V : Type} [DecidableEq K] (m : SMap K V) (k : K) : SMap K V :=
  fun k' => if k' = k then none else m k'

end SMap

/-- `2^32`, the modulus of Rust `u32` arithmetic. -/
def U32MOD : Nat := 2 ^ 32

/-- `2^64`, the modulus of Rust `u64` arithmetic. -/
def U64MOD : Nat := 2 ^ 64

/-- `2^128`, the modulus of Rust `u128` arithmetic. -/
def U128MOD : Nat := 2 ^ 128

/-- The Rust cast `v as i128` applied to a `u128` value `v` (two's complement
reinterpretation of the low 128 bits). -/
def u128_to_i128 (v : Nat) : Int :=
  if v < 2 ^ 127 then (v : Int) else (v : Int) - (U128MOD : Int)

/-- The Rust cast `a as u128` applied to an `i128` value `a` (two's complement
reinterpretation: `a mod 2^128`). -/
def i128_as_u128 (a : Int) : Nat := (a % (U128MOD : Int)).toNat

/-- Call context: the ledger sequence (`e.ledger().sequence() as u64`) and the
set of addresses whose `require_auth` succeeds for this invocation. -/
structure Ctx where
  tick : Nat
  auth : Address → Bool

/-- `DisputeError` from dispute-resolver/src/contract.rs. -/
inductive DisputeError
  | Unauthorized
  | DisputeNotFound
  | InvalidAmount
  | NotYetResolvable
  | AlreadyResolved
  | InvalidEvidence
deriving DecidableEq, Repr

/-- `EscrowError` from escrow-manager/src/contract.rs. -/
inductive EscrowError
  | Unauthorized
  | EscrowNotFound
  | InvalidAmount
  | AssetNotSupported
  | FundsLocked
  | InsufficientFunds
deriving DecidableEq, Repr

/-- `PaymentError` from payment-processor/src/contract.rs. -/
inductive PaymentError
  | Unauthorized
  | InvalidAmount
  | TokenNotSupported
  | FeeExceedsPayment
  | InsufficientBalance
  | TransferFailed
  | InvalidFeePercentage
deriving DecidableEq, Repr

/-- `LoyaltyError` from loyalty-program/src/contract.rs. -/
inductive LoyaltyError
  | Unauthorized
  | InvalidPoints
  | NoRewardEarned
  | InvalidTier
deriving DecidableEq, Repr

/-- `OrchestratorError` from payment-orchestrator/src/contract.rs. -/
inductive OrchestratorError
  | Unauthorized
  | InvalidAmount
  | ContractNotSet
  | RefuseTransfer
  | TransactionFailed
  | InvalidTransactionType
deriving DecidableEq, Repr

/-- Unified abort cause for an invocation of any of the five contracts.
`trap msg` models a Rust panic that is not a `panic_with_error!`
(an `expect`-style panic, or a failed `require_auth`). -/
inductive Err
  | disputeErr : DisputeError → Err
  | escrowErr : EscrowError → Err
  | paymentErr : PaymentError → Err
  | loyaltyErr : LoyaltyError → Err
  | orchErr : OrchestratorError → Err
  | trap : String → Err
deriving DecidableEq, Repr

/-- A token movement performed through `TokenClient::transfer`. -/
structure Transfer where
  asset : Address
  src : Address
  dst : Address
  amount : Int
deriving DecidableEq, Repr

namespace DisputeResolver

/-- `Dispute` record (dispute-resolver/src/contract.rs, lines 44-54);
`status`: 0 = Filed, 1 = UnderReview, 2 = Resolved, 3 = Refunded. -/
structure Dispute where
  dispute_id : String
  claimant : Address
  respondent : Address
  amount : Int
  reason : String
  evidence : String
  filed_at : Nat
  resolution_deadline : Nat
  status : Nat
deriving DecidableEq, Repr

/-- Instance storage of the dispute-resolver contract, as written by its
constructor (`OWNER`, `DWINDOW`, `DISPUTES`). -/
structure DisputeState where
  owner : Address
  dispute_window : Nat
  disputes : SMap String Dispute

/-- `__constructor(e, owner, dispute_window_ledgers)`. -/
def constructor (owner : Address) (dispute_window_ledgers : Nat) : DisputeState :=
  { owner := owner, dispute_window := dispute_window_ledgers, disputes := SMap.empty }

/-- `file_dispute` (dispute-resolver/src/contract.rs, lines 81-136).
`resolution_deadline = current_ledger + dispute_window` is a `u64` addition
and therefore wraps modulo `2^64`. -/
def file_dispute (c : Ctx) (s : DisputeState) (dispute_id : String)
    (claimant respondent : Address) (amount : Int) (reason evidence : String) :
    Except Err DisputeState :=
  if ¬ c.auth claimant then .error (.trap "require_auth failed")
  else if amount ≤ 0 then .error (.disputeErr .InvalidAmount)
  else
    let current_ledger := c.tick
    let resolution_deadline := (current_ledger + s.dispute_window) % U64MOD
    let dispute : Dispute :=
      { dispute_id := dispute_id, claimant := claimant, respondent := respondent,
        amount := amount, reason := reason, evidence := evidence,
        filed_at := current_ledger, resolution_deadline := resolution_deadline,
        status := 0 }
    .ok { s with disputes := s.disputes.set dispute_id dispute }

/-- `resolve_dispute` (dispute-resolver/src/contract.rs, lines 143-180).
`#[only_owner]` is modelled as `require_auth` of the stored owner.
On success, also returns the advisory refund recipient published in the
`resolved` event. -/
def resolve_dispute (c : Ctx) (s : DisputeState) (dispute_id : String)
    (refund_claimant : Bool) : Except Err (DisputeState × Address) :=
  if ¬ c.auth s.owner then .error (.trap "require_auth failed")
  else
    match s.disputes.get dispute_id with
    | none => .error (.disputeErr .DisputeNotFound)
    | some dispute =>
      if dispute.status ≠ 0 ∧ dispute.status ≠ 1 then
        .error (.disputeErr .AlreadyResolved)
      else
        let dispute' := { dispute with status := 2 }
        let recipient := if refund_claimant then dispute.claimant else dispute.respondent
        .ok ({ s with disputes := s.disputes.set dispute_id dispute' }, recipient)

/-- `refund_on_timeout` (dispute-resolver/src/contract.rs, lines 186-221).
Permissionless.  The deadline check comes first; then only
`status == 3` (Refunded) is rejected as `AlreadyResolved` — a dispute whose
status is 2 (Resolved) passes the guard.  On success returns the refund
recipient (the claimant) published in the `refunded` event. -/
def refund_on_timeout (c : Ctx) (s : DisputeState) (dispute_id : String) :
    Except Err (DisputeState × Address) :=
  match s.disputes.get dispute_id with
  | none => .error (.disputeErr .DisputeNotFound)
  | some dispute =>
    if c.tick < dispute.resolution_deadline then
      .error (.disputeErr .NotYetResolvable)
    else if dispute.status = 3 then
      .error (.disputeErr .AlreadyResolved)
    else
      .ok ({ s with disputes := s.disputes.set dispute_id { dispute with status := 3 } },
           dispute.claimant)

/-- `is_resolvable` (dispute-resolver/src/contract.rs, lines 237-250). -/
def is_resolvable (c : Ctx) (s : DisputeState) (dispute_id : String) : Bool :=
  match s.disputes.get dispute_id with
  | some dispute => decide (dispute.resolution_deadline ≤ c.tick)
  | none => false

end DisputeResolver

namespace EscrowManager

/-- `EscrowAccount` record (escrow-manager/src/contract.rs, lines 36-42). -/
structure EscrowAccount where
  owner : Address
  balance : Int
  asset : Address
  locked_until : Nat
  transaction_id : String
deriving DecidableEq, Repr

/-- Instance storage of the escrow-manager contract, plus the log of token
transfers it performed through `TokenClient`. -/
structure EscrowState where
  owner : Address
  escrows : SMap String EscrowAccount
  transfers : List Transfer

/-- `__constructor(e, owner)`. -/
def constructor (owner : Address) : EscrowState :=
  { owner := owner, escrows := SMap.empty, transfers := [] }

/-- `create_escrow` (escrow-manager/src/contract.rs, lines 61-105).
After the authorization and positivity checks it unconditionally
`set`s the record: there is no duplicate-id check, so an existing record
under the same id is overwritten (and `EscrowError` has no `DuplicateId`
variant). -/
def create_escrow (c : Ctx) (s : EscrowState) (transaction_id : String)
    (owner asset : Address) (amount : Int) (locked_until : Nat) :
    Except Err EscrowState :=
  if ¬ c.auth owner then .error (.trap "require_auth failed")
  else if amount ≤ 0 then .error (.escrowErr .InvalidAmount)
  else
    let escrow : EscrowAccount :=
      { owner := owner, balance := amount, asset := asset,
        locked_until := locked_until, transaction_id := transaction_id }
    .ok { s with escrows := s.escrows.set transaction_id escrow }

/-- `release_escrow` (escrow-manager/src/contract.rs, lines 112-148).
A missing record aborts (modelled as `EscrowNotFound`); funds still locked
abort with `FundsLocked`; otherwise the full balance is transferred from the
escrow owner to `recipient` and the record is removed. -/
def release_escrow (c : Ctx) (s : EscrowState) (transaction_id : String)
    (recipient : Address) : Except Err EscrowState :=
  match s.escrows.get transaction_id with
  | none => .error (.escrowErr .EscrowNotFound)
  | some escrow =>
    if c.tick < escrow.locked_until then .error (.escrowErr .FundsLocked)
    else
      .ok { s with
        transfers := s.transfers ++
          [{ asset := escrow.asset, src := escrow.owner, dst := recipient,
             amount := escrow.balance }],
        escrows := s.escrows.remove transaction_id }

/-- `refund_escrow` (escrow-manager/src/contract.rs, lines 154-187).
A missing record aborts (modelled as `EscrowNotFound`); the escrow owner
must authorize; note that there is no `locked_until` check on this path.
The full balance is transferred back to the owner and the record removed. -/
def refund_escrow (c : Ctx) (s : EscrowState) (transaction_id : String) :
    Except Err EscrowState :=
  match s.escrows.get transaction_id with
  | none => .error (.escrowErr .EscrowNotFound)
  | some escrow =>
    if ¬ c.auth escrow.owner then .error (.trap "require_auth failed")
    else
      .ok { s with
        transfers := s.transfers ++
          [{ asset := escrow.asset, src := escrow.owner, dst := escrow.owner,
             amount := escrow.balance }],
        escrows := s.escrows.remove transaction_id }

/-- `is_locked` (escrow-manager/src/contract.rs, lines 203-216). -/
def is_locked (c : Ctx) (s : EscrowState) (transaction_id : String) : Bool :=
  match s.escrows.get transaction_id with
  | some escrow => decide (c.tick < escrow.locked_until)
  | none => false

end EscrowManager

namespace PaymentProcessor

/-- Instance storage of the payment-processor contract, plus the log of token
transfers it performed through `TokenClient`. -/
structure ProcessorState where
  owner : Address
  payment_token : Address
  platform_fee_bps : Nat
  collected_fees : Int
  transfers : List Transfer

/-- `__constructor` (payment-processor/src/contract.rs, lines 57-73). -/
def constructor (owner payment_token : Address) (platform_fee_bps : Nat) :
    Except Err ProcessorState :=
  if 10000 < platform_fee_bps then .error (.paymentErr .InvalidFeePercentage)
  else
    .ok { owner := owner, payment_token := payment_token,
          platform_fee_bps := platform_fee_bps, collected_fees := 0,
          transfers := [] }

/-- The fee expression of `process_payment`
(payment-processor/src/contract.rs, lines 119-120):
`(amount as u128 * bps as u128 / 10000) as i128`.
The `u128` product wraps modulo `2^128` before the division. -/
def fee_calc (amount : Int) (bps : Nat) : Int :=
  u128_to_i128 ((i128_as_u128 amount * bps) % U128MOD / 10000)

/-- `process_payment` (payment-processor/src/contract.rs, lines 100-161).
Transfers: principal to `to_addr`, platform fee to the contract owner, and
the merchant fee to `merchant` when positive; then the platform fee is added
to the collected-fees counter. -/
def process_payment (c : Ctx) (s : ProcessorState) (from_addr to_addr : Address)
    (amount : Int) (merchant : Address) (merchant_fee_bps : Nat)
    (_payment_id : String) : Except Err ProcessorState :=
  if ¬ c.auth from_addr then .error (.trap "require_auth failed")
  else if amount ≤ 0 then .error (.paymentErr .InvalidAmount)
  else
    let platform_fee := fee_calc amount s.platform_fee_bps
    let merchant_fee := fee_calc amount merchant_fee_bps
    let total_fee := platform_fee + merchant_fee
    if amount ≤ total_fee then .error (.paymentErr .FeeExceedsPayment)
    else
      let t1 : Transfer :=
        { asset := s.payment_token, src := from_addr, dst := to_addr, amount := amount }
      let t2 : Transfer :=
        { asset := s.payment_token, src := from_addr, dst := s.owner,
          amount := platform_fee }
      let merchant_transfers :=
        if 0 < merchant_fee then
          [{ asset := s.payment_token, src := from_addr, dst := merchant,
             amount := merchant_fee : Transfer }]
        else []
      .ok { s with
        transfers := s.transfers ++ [t1, t2] ++ merchant_transfers,
        collected_fees := s.collected_fees + platform_fee }

end PaymentProcessor

namespace LoyaltyProgram

/-- `LoyaltyReward` record (loyalty-program/src/contract.rs, lines 43-50). -/
structure LoyaltyReward where
  token_id : Nat
  owner : Address
  points_earned : Nat
  tier : Nat
  transaction_id : String
  issued_at : Nat
deriving DecidableEq, Repr

/-- Instance storage of the loyalty-program contract. -/
structure LoyaltyState where
  owner : Address
  customer_points : SMap Address Nat
  issued_rewards : SMap Nat LoyaltyReward
  total_rewards : Nat

/-- `__constructor(e, owner)` (loyalty-program/src/contract.rs, lines 55-62). -/
def constructor (owner : Address) : LoyaltyState :=
  { owner := owner, customer_points := SMap.empty, issued_rewards := SMap.empty,
    total_rewards := 0 }

/-- `get_tier` (loyalty-program/src/contract.rs, lines 150-160). -/
def get_tier (points : Nat) : Nat :=
  if points < 1000 then 0
  else if points < 5000 then 1
  else if points < 10000 then 2
  else 3

/-- `issue_reward_nft` (loyalty-program/src/contract.rs, lines 163-212).
`token_id = total_rewards + 1` and the counter increment are `u32`
operations, so both wrap modulo `2^32`. -/
def issue_reward_nft (c : Ctx) (s : LoyaltyState) (owner : Address)
    (points_earned : Nat) (transaction_id : String) (tier : Nat) :
    LoyaltyState × Nat :=
  let token_id := (s.total_rewards + 1) % U32MOD
  let reward : LoyaltyReward :=
    { token_id := token_id, owner := owner, points_earned := points_earned,
      tier := tier, transaction_id := transaction_id, issued_at := c.tick }
  ({ s with issued_rewards := s.issued_rewards.set token_id reward,
            total_rewards := (s.total_rewards + 1) % U32MOD },
   token_id)

/-- `award_points` (loyalty-program/src/contract.rs, lines 70-124).
Requires the stored owner's authorization; rejects a zero award with
`InvalidPoints`; accumulates `u32` customer points (wrapping) and always
issues one reward NFT, returning its token id. -/
def award_points (c : Ctx) (s : LoyaltyState) (customer : Address)
    (transaction_id : String) (points : Nat) : Except Err (LoyaltyState × Nat) :=
  if ¬ c.auth s.owner then .error (.trap "require_auth failed")
  else if points = 0 then .error (.loyaltyErr .InvalidPoints)
  else
    let current_points := ((s.customer_points.get customer).getD 0 + points) % U32MOD
    let s1 := { s with customer_points := s.customer_points.set customer current_points }
    let tier := get_tier current_points
    let result := issue_reward_nft c s1 customer current_points transaction_id tier
    .ok result

/-- `get_total_rewards` (loyalty-program/src/contract.rs, lines 228-233). -/
def get_total_rewards (s : LoyaltyState) : Nat := s.total_rewards

/-- `redeem_points` (loyalty-program/src/contract.rs, lines 237-273).
`#[only_owner]`; burns points, removing the customer entry when the new
balance is zero.  It never touches `ISSUED_REWARDS` or `TOTAL_REWARDS`. -/
def redeem_points (c : Ctx) (s : LoyaltyState) (customer : Address)
    (points_to_redeem : Nat) : Except Err LoyaltyState :=
  if ¬ c.auth s.owner then .error (.trap "require_auth failed")
  else
    let current_points := (s.customer_points.get customer).getD 0
    if current_points < points_to_redeem then .error (.loyaltyErr .InvalidPoints)
    else
      let new_points := current_points - points_to_redeem
      if 0 < new_points then
        .ok { s with customer_points := s.customer_points.set customer new_points }
      else
        .ok { s with customer_points := s.customer_points.remove customer }

/-- A call made against the loyalty contract, paired with its call context;
used to state the reward-counter invariant over arbitrary call traces. -/
inductive LoyaltyOp
  | award (customer : Address) (transaction_id : String) (points : Nat)
  | redeem (customer : Address) (points_to_redeem : Nat)

/-- Run a list of loyalty-contract invocations from a state, returning the
final state and the number of invocations of `award_points` that succeeded.
A failed invocation is a rolled-back panic and leaves the state unchanged. -/
def loyalty_run : LoyaltyState → List (Ctx × LoyaltyOp) → LoyaltyState × Nat
  | s, [] => (s, 0)
  | s, (c, LoyaltyOp.award customer tid pts) :: ops =>
    match award_points c s customer tid pts with
    | .ok (s', _) => ((loyalty_run s' ops).1, (loyalty_run s' ops).2 + 1)
    | .error _ => loyalty_run s ops
  | s, (c, LoyaltyOp.redeem customer pts) :: ops =>
    match redeem_points c s customer pts with
    | .ok s' => loyalty_run s' ops
    | .error _ => loyalty_run s ops

end LoyaltyProgram

namespace PaymentOrchestrator

open PaymentProcessor EscrowManager DisputeResolver LoyaltyProgram

/-- `Transaction` record (payment-orchestrator/src/contract.rs, lines 53-61);
`status`: 0 Pending, 1 Completed, 2 EscrowHeld, 3 Disputed, 4 Refunded;
`transaction_type`: 0 Simple, 1 Escrow, 2 Conditional. -/
structure Transaction where
  transaction_id : String
  payer : Address
  payee : Address
  amount : Int
  status : Nat
  transaction_type : Nat
  created_at : Nat
deriving DecidableEq, Repr

/-- The orchestrator's instance storage together with the states of the four
contracts it invokes.  The stored collaborator addresses of the source are
replaced by the collaborators' states themselves, since cross-contract calls
are the only way those addresses are used. -/
structure World where
  owner : Address
  payment_token : Address
  processor : ProcessorState
  escrow : EscrowState
  disputes : DisputeState
  loyalty : LoyaltyState
  txlog : SMap String Transaction

/-- `calculate_loyalty_points` (payment-orchestrator/src/contract.rs,
lines 447-449): `(amount / 100) as u32`.  Rust `i128` division truncates
toward zero, and the `as u32` cast keeps the low 32 bits. -/
def calculate_loyalty_points (amount : Int) : Nat :=
  ((Int.tdiv amount 100) % (U32MOD : Int)).toNat

/-- `log_transaction` (payment-orchestrator/src/contract.rs, lines 452-480).
The record is always written with `status: 0` (Pending). -/
def log_transaction (c : Ctx) (w : World) (transaction_id : String)
    (payer payee : Address) (amount : Int) (transaction_type : Nat) : World :=
  let transaction : Transaction :=
    { transaction_id := transaction_id, payer := payer, payee := payee,
      amount := amount, status := 0, transaction_type := transaction_type,
      created_at := c.tick }
  { w with txlog := w.txlog.set transaction_id transaction }

/-- `update_transaction_status` (payment-orchestrator/src/contract.rs,
lines 483-503).  A missing transaction panics
(`expect_err("transaction not found")`). -/
def update_transaction_status (w : World) (transaction_id : String)
    (status : Nat) : Except Err World :=
  match w.txlog.get transaction_id with
  | none => .error (.trap "transaction not found")
  | some transaction =>
    .ok { w with
      txlog := w.txlog.set transaction_id { transaction with status := status } }

/-- `get_transaction` (payment-orchestrator/src/contract.rs, lines 271-281).
A missing transaction panics (`expect_err("transaction not found")`). -/
def get_transaction (w : World) (transaction_id : String) :
    Except Err Transaction :=
  match w.txlog.get transaction_id with
  | none => .error (.trap "transaction not found")
  | some transaction => .ok transaction

/-- `process_simple_payment` (payment-orchestrator/src/contract.rs,
lines 107-153): payer auth, amount check, cross-contract call to
`process_payment`, loyalty award of `amount / 100` points, then
`log_transaction` with `transaction_type = 0`. -/
def process_simple_payment (c : Ctx) (w : World) (transaction_id : String)
    (payer payee : Address) (amount : Int) (merchant : Address)
    (merchant_fee_bps : Nat) : Except Err World :=
  if ¬ c.auth payer then .error (.trap "require_auth failed")
  else if amount ≤ 0 then .error (.orchErr .InvalidAmount)
  else
    match PaymentProcessor.process_payment c w.processor payer payee amount
        merchant merchant_fee_bps transaction_id with
    | .error e => .error e
    | .ok p =>
      let points := calculate_loyalty_points amount
      match LoyaltyProgram.award_points c w.loyalty payer transaction_id points with
      | .error e => .error e
      | .ok lr =>
        let w1 := { w with processor := p, loyalty := lr.1 }
        .ok (log_transaction c w1 transaction_id payer payee amount 0)

/-- `process_escrow_payment` (payment-orchestrator/src/contract.rs,
lines 163-209): payer auth, amount check, cross-contract call to
`create_escrow` with the orchestrator-held payment token, loyalty award,
then `log_transaction` with `transaction_type = 1`. -/
def process_escrow_payment (c : Ctx) (w : World) (transaction_id : String)
    (payer payee : Address) (amount : Int) (locked_until : Nat) :
    Except Err World :=
  if ¬ c.auth payer then .error (.trap "require_auth failed")
  else if amount ≤ 0 then .error (.orchErr .InvalidAmount)
  else
    match EscrowManager.create_escrow c w.escrow transaction_id payer
        w.payment_token amount locked_until with
    | .error e => .error e
    | .ok es =>
      let points := calculate_loyalty_points amount
      match LoyaltyProgram.award_points c w.loyalty payer transaction_id points with
      | .error e => .error e
      | .ok lr =>
        let w1 := { w with escrow := es, loyalty := lr.1 }
        .ok (log_transaction c w1 transaction_id payer payee amount 1)

/-- Orchestrator `release_escrow` (payment-orchestrator/src/contract.rs,
lines 212-229): delegates to the vault, then sets the transaction status
to 1 (Completed). -/
def release_escrow (c : Ctx) (w : World) (transaction_id : String)
    (payee : Address) : Except Err World :=
  match EscrowManager.release_escrow c w.escrow transaction_id payee with
  | .error e => .error e
  | .ok es => update_transaction_status { w with escrow := es } transaction_id 1

/-- Orchestrator `file_dispute` (payment-orchestrator/src/contract.rs,
lines 232-268): claimant auth, transaction lookup, delegation to the
dispute registry with the transaction's recorded amount (the entry point
takes no amount argument), then status 3 (Disputed). -/
def file_dispute (c : Ctx) (w : World) (transaction_id : String)
    (claimant respondent : Address) (reason evidence : String) :
    Except Err World :=
  if ¬ c.auth claimant then .error (.trap "require_auth failed")
  else
    match get_transaction w transaction_id with
    | .error e => .error e
    | .ok transaction =>
      match DisputeResolver.file_dispute c w.disputes transaction_id claimant
          respondent transaction.amount reason evidence with
      | .error e => .error e
      | .ok ds => update_transaction_status { w with disputes := ds } transaction_id 3

end PaymentOrchestrator

/-! ## Concrete fixtures

Small concrete states used to exercise the embedded operations on explicit
inputs (counterexamples and witnesses). -/

/-- A call context at tick `t` in which every address is authorized. -/
def ctxAll (t : Nat) : Ctx := { tick := t, auth := fun _ => true }

/-- File a dispute (window 10, tick 5), resolve it (admin ruling, tick 7),
then call `refund_on_timeout` at tick 20 (past the deadline 15). -/
def c1_run : Except Err (DisputeResolver.DisputeState × Address) := do
  let s1 ← DisputeResolver.file_dispute (ctxAll 5) (DisputeResolver.constructor 0 10)
             "d1" 1 2 50 "late delivery" "receipt"
  let r ← DisputeResolver.resolve_dispute (ctxAll 7) s1 "d1" true
  DisputeResolver.refund_on_timeout (ctxAll 20) r.1 "d1"

/-- A dispute already in status 2 (Resolved), deadline 15. -/
def c1_resolved : DisputeResolver.Dispute :=
  { dispute_id := "d1", claimant := 1, respondent := 2, amount := 50,
    reason := "late delivery", evidence := "receipt", filed_at := 5,
    resolution_deadline := 15, status := 2 }

/-- Registry state holding the resolved dispute `c1_resolved`. -/
def c1_state : DisputeResolver.DisputeState :=
  { owner := 0, dispute_window := 10,
    disputes := SMap.empty.set "d1" c1_resolved }

/-- Escrow vault already holding an active record under id "t1". -/
def c2_state : EscrowManager.EscrowState :=
  { owner := 0, transfers := [],
    escrows := SMap.empty.set "t1"
      { owner := 1, balance := 100, asset := 9, locked_until := 50,
        transaction_id := "t1" } }

/-- Escrow vault holding a record under "t1" that is locked until tick 100. -/
def c5_state : EscrowManager.EscrowState :=
  { owner := 0, transfers := [],
    escrows := SMap.empty.set "t1"
      { owner := 1, balance := 100, asset := 9, locked_until := 100,
        transaction_id := "t1" } }

/-- Escrow vault holding a record under "t1" releasable from tick 50. -/
def c3_s0 : EscrowManager.EscrowState :=
  { owner := 0, transfers := [],
    escrows := SMap.empty.set "t1"
      { owner := 1, balance := 100, asset := 9, locked_until := 50,
        transaction_id := "t1" } }

/-- The vault state after a successful `release_escrow` of "t1" at tick 60. -/
def c3_s1 : EscrowManager.EscrowState :=
  (EscrowManager.release_escrow (ctxAll 60) c3_s0 "t1" 2).toOption.getD c3_s0

/-- A freshly initialized system: platform fee 100 bps, dispute window 1000,
all component stores empty. -/
def baseWorld : PaymentOrchestrator.World :=
  { owner := 0, payment_token := 9,
    processor := { owner := 0, payment_token := 9, platform_fee_bps := 100,
                   collected_fees := 0, transfers := [] },
    escrow := EscrowManager.constructor 0,
    disputes := DisputeResolver.constructor 0 1000,
    loyalty := LoyaltyProgram.constructor 0,
    txlog := SMap.empty }

/-- A simple payment of 1000 (merchant fee 200 bps) on the fresh system. -/
def c6_simple : Except Err PaymentOrchestrator.World :=
  PaymentOrchestrator.process_simple_payment (ctxAll 0) baseWorld "t1" 1 2 1000 3 200

/-- An escrow payment of 500 locked until tick 100 on the fresh system. -/
def c6_escrow : Except Err PaymentOrchestrator.World :=
  PaymentOrchestrator.process_escrow_payment (ctxAll 0) baseWorld "e1" 1 2 500 100

/-- The world after the successful simple payment `c6_simple`. -/
def c6_w1 : PaymentOrchestrator.World := c6_simple.toOption.getD baseWorld

/-- The world after the successful escrow payment `c6_escrow`. -/
def c6_w2 : PaymentOrchestrator.World := c6_escrow.toOption.getD baseWorld

/-- A world whose transaction log already holds "t1" with amount 1000. -/
def c8_world : PaymentOrchestrator.World :=
  { baseWorld with
    txlog := SMap.empty.set "t1"
      { transaction_id := "t1", payer := 1, payee := 2, amount := 1000,
        status := 1, transaction_type := 0, created_at := 0 } }

/-- A short trace of loyalty-contract calls: two successful awards around a
redemption. -/
def c10_ops : List (Ctx × LoyaltyProgram.LoyaltyOp) :=
  [(ctxAll 0, .award 1 "t1" 100),
   (ctxAll 1, .redeem 1 30),
   (ctxAll 2, .award 1 "t2" 250)]

/-! ## Theorems -/

namespace SMap

theorem get_set_same {K V : Type} [DecidableEq K] (m : SMap K V) (k : K) (v : V) :
    (m.set k v).get k = some v := by
  simp [get, set]

theorem get_set_ne {K V : Type} [DecidableEq K] (m : SMap K V) (k k' : K) (v : V)
    (h : k' ≠ k) : (m.set k v).get k' = m.get k' := by
  simp [get, set, h]

theorem get_remove_same {K V : Type} [DecidableEq K] (m : SMap K V) (k : K) :
    (m.remove k).get k = none := by
  simp [get, remove]

theorem get_remove_ne {K V : Type} [DecidableEq K] (m : SMap K V) (k k' : K)
    (h : k' ≠ k) : (m.remove k).get k' = m.get k' := by
  simp [get, remove, h]

end SMap

/-- **C1 counterexample.**  The claim says a dispute in terminal state
Resolved is never transitioned to Refunded by `refund_on_timeout`.  In the
code, `refund_on_timeout` only rejects status 3 (Refunded): filing a dispute
(window 10, tick 5), resolving it (status 2), and then calling
`refund_on_timeout` at tick 20 succeeds and moves the status to 3
(Refunded), refunding the claimant (address 1). -/
theorem c1_counterexample :
    (c1_run.toOption.map fun p =>
        ((p.1.disputes.get "d1").map DisputeResolver.Dispute.status, p.2))
      = some (some 3, 1) := by rfl

/-- **C1 (amended).**  Once a dispute is Resolved or Refunded,
`resolve_dispute` (owner-authorized) always fails with `AlreadyResolved`;
`refund_on_timeout` fails with `AlreadyResolved` at ticks past the deadline
only when the status is Refunded — a Resolved dispute past its deadline is
instead transitioned to Refunded with the claimant as recipient. -/
theorem c1_amended (c : Ctx) (s : DisputeResolver.DisputeState) (id : String)
    (d : DisputeResolver.Dispute)
    (hget : s.disputes.get id = some d) (hterm : d.status = 2 ∨ d.status = 3)
    (hauth : c.auth s.owner = true) :
    (∀ b, DisputeResolver.resolve_dispute c s id b
        = .error (.disputeErr .AlreadyResolved)) ∧
    (d.status = 3 → d.resolution_deadline ≤ c.tick →
        DisputeResolver.refund_on_timeout c s id
          = .error (.disputeErr .AlreadyResolved)) ∧
    (d.status = 2 → d.resolution_deadline ≤ c.tick →
        ∃ s', DisputeResolver.refund_on_timeout c s id = .ok (s', d.claimant) ∧
          (s'.disputes.get id).map DisputeResolver.Dispute.status = some 3) := by
  refine ⟨?_, ?_, ?_⟩
  · intro b
    rcases hterm with h | h
    · simp [DisputeResolver.resolve_dispute, hauth, hget, h]
    · simp [DisputeResolver.resolve_dispute, hauth, hget, h]
  · intro h3 hdl
    have hnl : ¬ (c.tick < d.resolution_deadline) := not_lt.mpr hdl
    simp [DisputeResolver.refund_on_timeout, hget, hnl, h3]
  · intro h2 hdl
    have hnl : ¬ (c.tick < d.resolution_deadline) := not_lt.mpr hdl
    refine ⟨{ s with disputes := s.disputes.set id { d with status := 3 } }, ?_, ?_⟩
    · simp [DisputeResolver.refund_on_timeout, hget, hnl, h2]
    · simp [SMap.get_set_same]

/-- **C1 witness**: the amended theorem applied to the concrete resolved
dispute `c1_resolved` at tick 20. -/
theorem c1_witness :
    (c1_state.disputes.get "d1" = some c1_resolved) ∧
    (c1_resolved.status = 2 ∨ c1_resolved.status = 3) ∧
    ((ctxAll 20).auth c1_state.owner = true) ∧
    ((∀ b, DisputeResolver.resolve_dispute (ctxAll 20) c1_state "d1" b
        = .error (.disputeErr .AlreadyResolved)) ∧
     (c1_resolved.status = 3 → c1_resolved.resolution_deadline ≤ (ctxAll 20).tick →
        DisputeResolver.refund_on_timeout (ctxAll 20) c1_state "d1"
          = .error (.disputeErr .AlreadyResolved)) ∧
     (c1_resolved.status = 2 → c1_resolved.resolution_deadline ≤ (ctxAll 20).tick →
        ∃ s', DisputeResolver.refund_on_timeout (ctxAll 20) c1_state "d1"
            = .ok (s', c1_resolved.claimant) ∧
          (s'.disputes.get "d1").map DisputeResolver.Dispute.status = some 3)) :=
  ⟨rfl, by decide, rfl,
   c1_amended (ctxAll 20) c1_state "d1" c1_resolved rfl (by decide) rfl⟩

/-- **C2 counterexample.**  The claim says `create_escrow` on an id that
already has an active record fails with `DuplicateId`, leaving the existing
record unchanged.  In the code there is no duplicate check at all (and
`EscrowError` has no `DuplicateId` variant): on the vault `c2_state`, which
already holds "t1" with balance 100, a second `create_escrow` for "t1"
succeeds and overwrites the record (its balance becomes 200). -/
theorem c2_counterexample :
    ((EscrowManager.create_escrow (ctxAll 0) c2_state "t1" 1 9 200 60).toOption.map
        fun s => (s.escrows.get "t1").map EscrowManager.EscrowAccount.balance)
      = some (some 200) := by rfl

/-- **C2 (amended).**  `create_escrow` requires the owner's authorization and
a positive amount, but performs no duplicate-id check: with those two
conditions met it always succeeds, writing the new record under the id
(overwriting any existing record) and leaving every other id untouched. -/
theorem c2_amended (c : Ctx) (s : EscrowManager.EscrowState) (tid : String)
    (owner asset : Address) (amount : Int) (lock : Nat)
    (hauth : c.auth owner = true) (hpos : 0 < amount) :
    ∃ s', EscrowManager.create_escrow c s tid owner asset amount lock = .ok s' ∧
      s'.escrows.get tid = some
        { owner := owner, balance := amount, asset := asset,
          locked_until := lock, transaction_id := tid } ∧
      (∀ k, k ≠ tid → s'.escrows.get k = s.escrows.get k) := by
  have hneg : ¬ (amount ≤ 0) := not_le.mpr hpos
  refine ⟨{ s with escrows := s.escrows.set tid ⟨owner, amount, asset, lock, tid⟩ },
    ?_, ?_, ?_⟩
  · simp [EscrowManager.create_escrow, hauth, hneg]
  · exact SMap.get_set_same _ _ _
  · intro k hk
    exact SMap.get_set_ne _ _ _ _ hk

/-- **C2 witness**: the amended theorem applied to the occupied vault
`c2_state` and a fresh `create_escrow` call reusing id "t1". -/
theorem c2_witness :
    ((ctxAll 0).auth 1 = true) ∧ ((0 : Int) < 200) ∧
    (∃ s', EscrowManager.create_escrow (ctxAll 0) c2_state "t1" 1 9 200 60 = .ok s' ∧
      s'.escrows.get "t1" = some
        { owner := 1, balance := 200, asset := 9, locked_until := 60,
          transaction_id := "t1" } ∧
      (∀ k, k ≠ "t1" → s'.escrows.get k = c2_state.escrows.get k)) :=
  ⟨rfl, by decide, c2_amended (ctxAll 0) c2_state "t1" 1 9 200 60 rfl (by decide)⟩

/-- **C5 counterexample.**  The claim says that before the lock deadline
`refund_escrow` fails without transferring the balance or removing the
record.  In the code `refund_escrow` never consults `locked_until`: on the
vault `c5_state` (record "t1" locked until tick 100) a refund at tick 50
succeeds, transfers the 100-unit balance back to owner 1, and removes the
record. -/
theorem c5_counterexample :
    ((EscrowManager.refund_escrow (ctxAll 50) c5_state "t1").toOption.map
        fun s => (s.escrows.get "t1", s.transfers))
      = some (none, [{ asset := 9, src := 1, dst := 1, amount := 100 }]) := by rfl

/-- **C5 (amended).**  For an active escrow and a tick strictly before its
`locked_until` deadline, `release_escrow` fails with `FundsLocked` (for any
recipient); `refund_escrow`, however, performs no deadline check: with the
escrow owner authorized it succeeds even before the deadline, transferring
the balance back to the owner and removing the record. -/
theorem c5_amended (c : Ctx) (s : EscrowManager.EscrowState) (tid : String)
    (esc : EscrowManager.EscrowAccount)
    (hget : s.escrows.get tid = some esc) (hlock : c.tick < esc.locked_until) :
    (∀ recipient, EscrowManager.release_escrow c s tid recipient
        = .error (.escrowErr .FundsLocked)) ∧
    (c.auth esc.owner = true →
      EscrowManager.refund_escrow c s tid = .ok { s with
        transfers := s.transfers ++
          [{ asset := esc.asset, src := esc.owner, dst := esc.owner,
             amount := esc.balance }],
        escrows := s.escrows.remove tid }) := by
  constructor
  · intro recipient
    simp [EscrowManager.release_escrow, hget, hlock]
  · intro hauth
    simp [EscrowManager.refund_escrow, hget, hauth]

/-- **C5 witness**: the amended theorem applied to the vault `c5_state`
(record locked until tick 100) at tick 50. -/
theorem c5_witness :
    (c5_state.escrows.get "t1" = some
      { owner := 1, balance := 100, asset := 9, locked_until := 100,
        transaction_id := "t1" }) ∧
    ((ctxAll 50).tick < 100) ∧
    ((∀ recipient, EscrowManager.release_escrow (ctxAll 50) c5_state "t1" recipient
        = .error (.escrowErr .FundsLocked)) ∧
     ((ctxAll 50).auth 1 = true →
       EscrowManager.refund_escrow (ctxAll 50) c5_state "t1" = .ok { c5_state with
         transfers := c5_state.transfers ++
           [{ asset := 9, src := 1, dst := 1, amount := 100 }],
         escrows := c5_state.escrows.remove "t1" })) :=
  ⟨rfl, by decide,
   c5_amended (ctxAll 50) c5_state "t1" _ rfl (by decide)⟩

/-- **C3 (confirmed).**  After a successful `release_escrow` the record is
gone, exactly one transfer of the full balance to the recipient was
performed, and every subsequent `release_escrow` or `refund_escrow` on the
same id aborts with `EscrowNotFound` (an abort rolls the invocation back, so
no token transfer is performed): the balance is never paid out twice. -/
theorem c3_release_at_most_once (cA cB cC : Ctx) (s s' : EscrowManager.EscrowState)
    (tid : String) (recipient r2 : Address) (esc : EscrowManager.EscrowAccount)
    (hget : s.escrows.get tid = some esc)
    (hrel : EscrowManager.release_escrow cA s tid recipient = .ok s') :
    s'.transfers = s.transfers ++
      [{ asset := esc.asset, src := esc.owner, dst := recipient,
         amount := esc.balance }] ∧
    s'.escrows.get tid = none ∧
    EscrowManager.release_escrow cB s' tid r2 = .error (.escrowErr .EscrowNotFound) ∧
    EscrowManager.refund_escrow cC s' tid = .error (.escrowErr .EscrowNotFound) := by
  by_cases hl : cA.tick < esc.locked_until
  · simp [EscrowManager.release_escrow, hget, hl] at hrel
  · simp [EscrowManager.release_escrow, hget, hl] at hrel
    subst hrel
    refine ⟨rfl, SMap.get_remove_same _ _, ?_, ?_⟩
    · simp [EscrowManager.release_escrow, SMap.get_remove_same]
    · simp [EscrowManager.refund_escrow, SMap.get_remove_same]

/-- **C3 witness**: a concrete release of "t1" from `c3_s0` at tick 60
(deadline 50) yielding `c3_s1`, to which the theorem applies. -/
theorem c3_witness :
    (c3_s0.escrows.get "t1" = some
      { owner := 1, balance := 100, asset := 9, locked_until := 50,
        transaction_id := "t1" }) ∧
    (EscrowManager.release_escrow (ctxAll 60) c3_s0 "t1" 2 = .ok c3_s1) ∧
    (c3_s1.transfers = c3_s0.transfers ++
        [{ asset := 9, src := 1, dst := 2, amount := 100 }] ∧
     c3_s1.escrows.get "t1" = none ∧
     EscrowManager.release_escrow (ctxAll 70) c3_s1 "t1" 3
        = .error (.escrowErr .EscrowNotFound) ∧
     EscrowManager.refund_escrow (ctxAll 70) c3_s1 "t1"
        = .error (.escrowErr .EscrowNotFound)) :=
  ⟨rfl, rfl,
   c3_release_at_most_once (ctxAll 60) (ctxAll 70) (ctxAll 70) c3_s0 c3_s1
     "t1" 2 3 _ rfl rfl⟩

/-- Decimal value of `U128MOD`. -/
theorem U128MOD_eq : U128MOD = 340282366920938463463374607431768211456 := by
  norm_num [U128MOD]

/-- Decimal value of `2 ^ 127`. -/
theorem two_pow_127_eq : (2 : Nat) ^ 127 = 170141183460469231731687303715884105728 := by
  norm_num

/-- When the 128-bit product does not wrap, the fee expression of
`process_payment` computes the exact floor `⌊a·bps/10000⌋`. -/
theorem fee_calc_exact (a : Int) (bps : Nat) (ha : 0 < a)
    (hrange : a.toNat < 2 ^ 127) (hb : a.toNat * bps < U128MOD) :
    PaymentProcessor.fee_calc a bps = ((a.toNat * bps / 10000 : Nat) : Int) := by
  have hu : i128_as_u128 a = a.toNat := by
    unfold i128_as_u128
    rw [U128MOD_eq] at *
    rw [two_pow_127_eq] at hrange
    omega
  simp only [PaymentProcessor.fee_calc]
  rw [hu, Nat.mod_eq_of_lt hb]
  have hd : a.toNat * bps / 10000 < 2 ^ 127 := by
    rw [Nat.div_lt_iff_lt_mul (by norm_num : 0 < 10000)]
    calc a.toNat * bps < U128MOD := hb
      _ ≤ 2 ^ 127 * 10000 := by norm_num [U128MOD]
  rw [u128_to_i128, if_pos hd]

/-- Two floor-truncated basis-point fees with rates summing below 10000
never reach the principal. -/
theorem fee_floor_sum_lt (a p m : Nat) (ha : 0 < a) (hpm : p + m < 10000) :
    a * p / 10000 + a * m / 10000 < a := by
  have h1 : a * p / 10000 + a * m / 10000 ≤ a * (p + m) / 10000 := by
    rw [Nat.le_div_iff_mul_le (by norm_num : 0 < 10000)]
    have hp1 : a * p / 10000 * 10000 ≤ a * p := Nat.div_mul_le_self _ _
    have hm1 : a * m / 10000 * 10000 ≤ a * m := Nat.div_mul_le_self _ _
    calc (a * p / 10000 + a * m / 10000) * 10000
        = a * p / 10000 * 10000 + a * m / 10000 * 10000 := by ring
      _ ≤ a * p + a * m := Nat.add_le_add hp1 hm1
      _ = a * (p + m) := by ring
  have h2 : a * (p + m) / 10000 < a := by
    rw [Nat.div_lt_iff_lt_mul (by norm_num : 0 < 10000)]
    have h3 : a * (p + m) ≤ a * 9999 := Nat.mul_le_mul_left a (by omega)
    omega
  omega

/-- **C4 counterexample.**  The claim asserts the fees are computed "without
overflow via a wide intermediate product" and always equal
`⌊a·bps/10000⌋`.  For the valid `i128` amount `a = 2^126` and rates
`p = 9999, m = 0` (so `p + m < 10000`), the `u128` intermediate product
`a·9999 = 9999·2^126` exceeds `2^128` and wraps, so the computed platform
fee differs from `⌊a·9999/10000⌋`. -/
theorem c4_counterexample :
    PaymentProcessor.fee_calc (85070591730234615865843651857942052864 : Int) 9999
      ≠ ((85070591730234615865843651857942052864 * 9999 / 10000 : Nat) : Int) := by
  decide

/-- **C4 (amended).**  For every amount `a > 0` small enough that the 128-bit
intermediate product cannot wrap (`a·10000 < 2^128`) and basis-point rates
`p ≤ 10000`, `m ≤ 10000` with `p + m < 10000`, `process_payment` computes
`platform_fee = ⌊a·p/10000⌋` and `merchant_fee = ⌊a·m/10000⌋`, both
non-negative with `platform_fee + merchant_fee < a`, and the
`FeeExceedsPayment` branch (taken exactly when the computed
`total_fee >= amount`) is not reached: the payment completes.  Without the
`a·10000 < 2^128` bound the product wraps (see the counterexample). -/
theorem c4_amended (c : Ctx) (s : PaymentProcessor.ProcessorState)
    (from_addr to_addr merchant : Address) (a : Int) (pid : String) (mbps : Nat)
    (hauth : c.auth from_addr = true) (ha : 0 < a)
    (hbound : a.toNat * 10000 < U128MOD)
    (hp : s.platform_fee_bps ≤ 10000) (hm : mbps ≤ 10000)
    (hpm : s.platform_fee_bps + mbps < 10000) :
    PaymentProcessor.fee_calc a s.platform_fee_bps
        = ((a.toNat * s.platform_fee_bps / 10000 : Nat) : Int) ∧
    PaymentProcessor.fee_calc a mbps = ((a.toNat * mbps / 10000 : Nat) : Int) ∧
    0 ≤ PaymentProcessor.fee_calc a s.platform_fee_bps ∧
    0 ≤ PaymentProcessor.fee_calc a mbps ∧
    PaymentProcessor.fee_calc a s.platform_fee_bps
        + PaymentProcessor.fee_calc a mbps < a ∧
    (PaymentProcessor.process_payment c s from_addr to_addr a merchant mbps
        pid).isOk = true := by
  have hrange : a.toNat < 2 ^ 127 := by
    rw [U128MOD_eq] at hbound
    rw [two_pow_127_eq]
    omega
  have hbp : a.toNat * s.platform_fee_bps < U128MOD :=
    lt_of_le_of_lt (Nat.mul_le_mul_left _ hp) hbound
  have hbm : a.toNat * mbps < U128MOD :=
    lt_of_le_of_lt (Nat.mul_le_mul_left _ hm) hbound
  have hfp := fee_calc_exact a s.platform_fee_bps ha hrange hbp
  have hfm := fee_calc_exact a mbps ha hrange hbm
  have hat : 0 < a.toNat := by omega
  have hsumNat := fee_floor_sum_lt a.toNat s.platform_fee_bps mbps hat hpm
  have hsum : PaymentProcessor.fee_calc a s.platform_fee_bps
      + PaymentProcessor.fee_calc a mbps < a := by
    rw [hfp, hfm]; omega
  refine ⟨hfp, hfm, by rw [hfp]; omega, by rw [hfm]; omega, hsum, ?_⟩
  have hne : ¬ (a ≤ 0) := not_le.mpr ha
  have hnf : ¬ (a ≤ PaymentProcessor.fee_calc a s.platform_fee_bps
      + PaymentProcessor.fee_calc a mbps) := not_le.mpr hsum
  simp [PaymentProcessor.process_payment, hauth, hne, hnf, Except.isOk, Except.toBool]

/-- **C4 witness**: the amended theorem on the fresh processor
(`platform_fee_bps = 100`) with amount 1000 and merchant rate 200. -/
theorem c4_witness :
    ((ctxAll 0).auth 1 = true) ∧ ((0 : Int) < 1000) ∧
    ((1000 : Int).toNat * 10000 < U128MOD) ∧
    (baseWorld.processor.platform_fee_bps ≤ 10000) ∧ ((200 : Nat) ≤ 10000) ∧
    (baseWorld.processor.platform_fee_bps + 200 < 10000) ∧
    (PaymentProcessor.fee_calc 1000 baseWorld.processor.platform_fee_bps
        = (((1000 : Int).toNat * baseWorld.processor.platform_fee_bps / 10000 : Nat) : Int) ∧
     PaymentProcessor.fee_calc 1000 200 = (((1000 : Int).toNat * 200 / 10000 : Nat) : Int) ∧
     0 ≤ PaymentProcessor.fee_calc 1000 baseWorld.processor.platform_fee_bps ∧
     0 ≤ PaymentProcessor.fee_calc 1000 200 ∧
     PaymentProcessor.fee_calc 1000 baseWorld.processor.platform_fee_bps
        + PaymentProcessor.fee_calc 1000 200 < 1000 ∧
     (PaymentProcessor.process_payment (ctxAll 0) baseWorld.processor 1 2 1000 3 200
        "t1").isOk = true) :=
  ⟨rfl, by decide, by decide, by decide, by decide, by decide,
   c4_amended (ctxAll 0) baseWorld.processor 1 2 3 1000 "t1" 200 rfl (by decide)
     (by decide) (by decide) (by decide) (by decide)⟩


/-- **C6 counterexample.**  The claim says a successful
`process_simple_payment` records the transaction with status Completed (1)
and a successful `process_escrow_payment` records status EscrowHeld (2).
`log_transaction` always writes `status: 0` (Pending): on the fresh system
both concrete payments succeed, yet "t1" is logged with
`(status, transaction_type) = (0, 0)` and "e1" with `(0, 1)`. -/
theorem c6_counterexample :
    (c6_simple.toOption.map fun w =>
        (w.txlog.get "t1").map fun t => (t.status, t.transaction_type))
      = some (some (0, 0)) ∧
    (c6_escrow.toOption.map fun w =>
        (w.txlog.get "e1").map fun t => (t.status, t.transaction_type))
      = some (some (0, 1)) := by
  exact ⟨rfl, rfl⟩

/-- **C6 (amended).**  After every successful `process_simple_payment` the
recorded transaction has kind simple (`transaction_type = 0`), and after
every successful `process_escrow_payment` it has kind escrow
(`transaction_type = 1`); in both cases the recorded status is 0 (Pending) —
`log_transaction` never writes Completed or EscrowHeld. -/
theorem c6_amended (c : Ctx) (w w1 w2 : PaymentOrchestrator.World)
    (tid1 tid2 : String) (payer payee merchant : Address) (a1 a2 : Int)
    (mbps lock : Nat)
    (h1 : PaymentOrchestrator.process_simple_payment c w tid1 payer payee a1
        merchant mbps = .ok w1)
    (h2 : PaymentOrchestrator.process_escrow_payment c w tid2 payer payee a2
        lock = .ok w2) :
    w1.txlog.get tid1 = some
      { transaction_id := tid1, payer := payer, payee := payee, amount := a1,
        status := 0, transaction_type := 0, created_at := c.tick } ∧
    w2.txlog.get tid2 = some
      { transaction_id := tid2, payer := payer, payee := payee, amount := a2,
        status := 0, transaction_type := 1, created_at := c.tick } := by
  constructor
  · unfold PaymentOrchestrator.process_simple_payment at h1
    by_cases hauth : c.auth payer
    · simp only [hauth, not_true_eq_false, if_false] at h1
      by_cases hneg : a1 ≤ 0
      · simp [hneg] at h1
      · simp only [hneg, if_false] at h1
        cases hp : PaymentProcessor.process_payment c w.processor payer payee
            a1 merchant mbps tid1 with
        | error e => simp [hp] at h1
        | ok p =>
          cases hl : LoyaltyProgram.award_points c w.loyalty payer tid1
              (PaymentOrchestrator.calculate_loyalty_points a1) with
          | error e => simp [hp, hl] at h1
          | ok lr =>
            simp only [hp, hl, PaymentOrchestrator.log_transaction,
              Except.ok.injEq] at h1
            subst h1
            exact SMap.get_set_same _ _ _
    · simp [hauth] at h1
  · unfold PaymentOrchestrator.process_escrow_payment at h2
    by_cases hauth : c.auth payer
    · simp only [hauth, not_true_eq_false, if_false] at h2
      by_cases hneg : a2 ≤ 0
      · simp [hneg] at h2
      · simp only [hneg, if_false] at h2
        cases he : EscrowManager.create_escrow c w.escrow tid2 payer
            w.payment_token a2 lock with
        | error e => simp [he] at h2
        | ok es =>
          cases hl : LoyaltyProgram.award_points c w.loyalty payer tid2
              (PaymentOrchestrator.calculate_loyalty_points a2) with
          | error e => simp [he, hl] at h2
          | ok lr =>
            simp only [he, hl, PaymentOrchestrator.log_transaction,
              Except.ok.injEq] at h2
            subst h2
            exact SMap.get_set_same _ _ _
    · simp [hauth] at h2

/-- **C6 witness**: the amended theorem applied to the two concrete
successful payments `c6_simple` (amount 1000) and `c6_escrow` (amount 500)
on the fresh system. -/
theorem c6_witness :
    (PaymentOrchestrator.process_simple_payment (ctxAll 0) baseWorld "t1" 1 2 1000
        3 200 = .ok c6_w1) ∧
    (PaymentOrchestrator.process_escrow_payment (ctxAll 0) baseWorld "e1" 1 2 500
        100 = .ok c6_w2) ∧
    (c6_w1.txlog.get "t1" = some
      { transaction_id := "t1", payer := 1, payee := 2, amount := 1000,
        status := 0, transaction_type := 0, created_at := 0 } ∧
     c6_w2.txlog.get "e1" = some
      { transaction_id := "e1", payer := 1, payee := 2, amount := 500,
        status := 0, transaction_type := 1, created_at := 0 }) :=
  ⟨rfl, rfl,
   c6_amended (ctxAll 0) baseWorld c6_w1 c6_w2 "t1" "e1" 1 2 3 1000 500 200 100
     rfl rfl⟩

/-- **C7 (confirmed).**  Filing a dispute at tick `t` with configured window
`w` (with `t + w` inside the `u64` range) records
`resolution_deadline = t + w`, `filed_at = t`, status Filed; on that
dispute, `refund_on_timeout` fails with `NotYetResolvable` at every tick
strictly below `t + w` and succeeds at every tick `>= t + w`, transitioning
the status to Refunded (3) and designating the claimant as recipient. -/
theorem c7_timeout_ordering (c : Ctx) (s : DisputeResolver.DisputeState)
    (id : String) (claimant respondent : Address) (amount : Int)
    (reason evidence : String)
    (hauth : c.auth claimant = true) (hamt : 0 < amount)
    (hnowrap : c.tick + s.dispute_window < U64MOD) :
    ∃ s1 d, DisputeResolver.file_dispute c s id claimant respondent amount
        reason evidence = .ok s1 ∧
      s1.disputes.get id = some d ∧
      d.resolution_deadline = c.tick + s.dispute_window ∧
      d.filed_at = c.tick ∧ d.status = 0 ∧ d.claimant = claimant ∧
      (∀ c' : Ctx, c'.tick < c.tick + s.dispute_window →
        DisputeResolver.refund_on_timeout c' s1 id
          = .error (.disputeErr .NotYetResolvable)) ∧
      (∀ c' : Ctx, c.tick + s.dispute_window ≤ c'.tick →
        ∃ s2, DisputeResolver.refund_on_timeout c' s1 id = .ok (s2, claimant) ∧
          (s2.disputes.get id).map DisputeResolver.Dispute.status = some 3) := by
  have hneg : ¬ (amount ≤ 0) := not_le.mpr hamt
  have hmod : (c.tick + s.dispute_window) % U64MOD = c.tick + s.dispute_window :=
    Nat.mod_eq_of_lt hnowrap
  refine ⟨{ s with
              disputes := s.disputes.set id
                  ⟨id, claimant, respondent, amount, reason, evidence, c.tick,
                    (c.tick + s.dispute_window) % U64MOD, 0⟩ },
    ⟨id, claimant, respondent, amount, reason, evidence, c.tick,
      (c.tick + s.dispute_window) % U64MOD, 0⟩,
    ?_, SMap.get_set_same _ _ _, ?_, rfl, rfl, rfl, ?_, ?_⟩
  · simp [DisputeResolver.file_dispute, hauth, hneg]
  · exact hmod
  · intro c' hc'
    have hlt : c'.tick < (c.tick + s.dispute_window) % U64MOD := by
      rw [hmod]; exact hc'
    simp [DisputeResolver.refund_on_timeout, SMap.get_set_same, hlt]
  · intro c' hc'
    have hnl : ¬ (c'.tick < (c.tick + s.dispute_window) % U64MOD) := by
      rw [hmod]; exact not_lt.mpr hc'
    refine ⟨{ s with
                disputes := (s.disputes.set id
                    ⟨id, claimant, respondent, amount, reason, evidence, c.tick,
                      (c.tick + s.dispute_window) % U64MOD, 0⟩).set id
                    ⟨id, claimant, respondent, amount, reason, evidence, c.tick,
                      (c.tick + s.dispute_window) % U64MOD, 3⟩ },
      ?_, ?_⟩
    · simp [DisputeResolver.refund_on_timeout, SMap.get_set_same, hnl]
    · simp [SMap.get_set_same]

/-- **C7 witness**: filing "d7" at tick 200 with window 1000 gives deadline
1200; `refund_on_timeout` fails at tick 1199 and succeeds at tick 1200. -/
theorem c7_witness :
    ((ctxAll 200).auth 1 = true) ∧ ((0 : Int) < 40) ∧
    ((ctxAll 200).tick + (DisputeResolver.constructor 0 1000).dispute_window
        < U64MOD) ∧
    (∃ s1 d, DisputeResolver.file_dispute (ctxAll 200)
        (DisputeResolver.constructor 0 1000) "d7" 1 2 40 "late" "docs" = .ok s1 ∧
      s1.disputes.get "d7" = some d ∧
      d.resolution_deadline = (ctxAll 200).tick
          + (DisputeResolver.constructor 0 1000).dispute_window ∧
      d.filed_at = (ctxAll 200).tick ∧ d.status = 0 ∧ d.claimant = 1 ∧
      (∀ c' : Ctx, c'.tick < (ctxAll 200).tick
            + (DisputeResolver.constructor 0 1000).dispute_window →
        DisputeResolver.refund_on_timeout c' s1 "d7"
          = .error (.disputeErr .NotYetResolvable)) ∧
      (∀ c' : Ctx, (ctxAll 200).tick
            + (DisputeResolver.constructor 0 1000).dispute_window ≤ c'.tick →
        ∃ s2, DisputeResolver.refund_on_timeout c' s1 "d7" = .ok (s2, 1) ∧
          (s2.disputes.get "d7").map DisputeResolver.Dispute.status = some 3)) :=
  ⟨rfl, by decide, by decide,
   c7_timeout_ordering (ctxAll 200) (DisputeResolver.constructor 0 1000) "d7"
     1 2 40 "late" "docs" rfl (by decide) (by decide)⟩

/-- **C8 (confirmed).**  The orchestrator's `file_dispute` aborts with the
"transaction not found" panic when the id is absent from the transaction log
(so no dispute is filed — the abort rolls everything back), and when the
transaction exists (with the positive amount every logged transaction has)
it files the dispute with the transaction's recorded amount — the entry
point takes no caller-supplied amount — and sets the transaction's status to
3 (Disputed). -/
theorem c8_dispute_amount_from_log (c : Ctx) (w : PaymentOrchestrator.World)
    (tid : String) (claimant respondent : Address) (reason evidence : String)
    (hauth : c.auth claimant = true) :
    (w.txlog.get tid = none →
      PaymentOrchestrator.file_dispute c w tid claimant respondent reason evidence
        = .error (.trap "transaction not found")) ∧
    (∀ tx, w.txlog.get tid = some tx → 0 < tx.amount →
      ∃ w', PaymentOrchestrator.file_dispute c w tid claimant respondent reason
          evidence = .ok w' ∧
        (w'.disputes.disputes.get tid).map DisputeResolver.Dispute.amount
          = some tx.amount ∧
        (w'.txlog.get tid).map PaymentOrchestrator.Transaction.status
          = some 3) := by
  constructor
  · intro hnone
    simp [PaymentOrchestrator.file_dispute, hauth,
      PaymentOrchestrator.get_transaction, hnone]
  · intro tx htx hpos
    have hneg : ¬ (tx.amount ≤ 0) := not_le.mpr hpos
    refine ⟨{ w with
                disputes := { w.disputes with
                                disputes := w.disputes.disputes.set tid
                                    ⟨tid, claimant, respondent, tx.amount, reason,
                                      evidence, c.tick,
                                      (c.tick + w.disputes.dispute_window) % U64MOD,
                                      0⟩ },
                txlog := w.txlog.set tid
                    ⟨tx.transaction_id, tx.payer, tx.payee, tx.amount, 3,
                      tx.transaction_type, tx.created_at⟩ },
      ?_, ?_, ?_⟩
    · simp [PaymentOrchestrator.file_dispute, hauth,
        PaymentOrchestrator.get_transaction, htx, DisputeResolver.file_dispute,
        hneg, PaymentOrchestrator.update_transaction_status]
    · simp [SMap.get_set_same]
    · simp [SMap.get_set_same]

/-- **C8 witness**: the theorem applied to `c8_world`, whose log holds "t1"
with recorded amount 1000. -/
theorem c8_witness :
    ((ctxAll 5).auth 3 = true) ∧
    ((c8_world.txlog.get "t1" = none →
      PaymentOrchestrator.file_dispute (ctxAll 5) c8_world "t1" 3 2 "bad" "ev"
        = .error (.trap "transaction not found")) ∧
     (∀ tx, c8_world.txlog.get "t1" = some tx → 0 < tx.amount →
      ∃ w', PaymentOrchestrator.file_dispute (ctxAll 5) c8_world "t1" 3 2 "bad"
          "ev" = .ok w' ∧
        (w'.disputes.disputes.get "t1").map DisputeResolver.Dispute.amount
          = some tx.amount ∧
        (w'.txlog.get "t1").map PaymentOrchestrator.Transaction.status
          = some 3)) :=
  ⟨rfl, c8_dispute_amount_from_log (ctxAll 5) c8_world "t1" 3 2 "bad" "ev" rfl⟩

/-- Amounts in `(0, 100)` yield zero loyalty points (`amount / 100`
truncates to 0). -/
theorem calculate_loyalty_points_eq_zero (amount : Int) (h0 : 0 < amount)
    (h100 : amount < 100) :
    PaymentOrchestrator.calculate_loyalty_points amount = 0 := by
  obtain ⟨n, rfl⟩ : ∃ n : Nat, amount = (n : Int) :=
    ⟨amount.toNat, (Int.toNat_of_nonneg h0.le).symm⟩
  have hn : n < 100 := by exact_mod_cast h100
  unfold PaymentOrchestrator.calculate_loyalty_points
  rw [show (n : Int).tdiv 100 = ((n / 100 : Nat) : Int) from rfl,
    Nat.div_eq_of_lt hn]
  rfl

/-- A zero-point award always fails with `InvalidPoints` (once the loyalty
owner's authorization passed). -/
theorem award_points_zero_fails (c : Ctx) (s : LoyaltyProgram.LoyaltyState)
    (customer : Address) (tid : String) (hao : c.auth s.owner = true) :
    LoyaltyProgram.award_points c s customer tid 0
      = .error (.loyaltyErr .InvalidPoints) := by
  simp [LoyaltyProgram.award_points, hao]

/-- **C9 (confirmed).**  For every amount `a` with `0 < a < 100` (which
passes the `InvalidAmount` checks) and a fee configuration whose rates sum
below 10000 (so the fee guard also passes), both `process_simple_payment`
and `process_escrow_payment` fail with the loyalty program's
`InvalidPoints`: the computed points `a / 100` are 0, `award_points`
rejects a zero award, and the abort rolls the whole operation back, so no
transaction is logged (an aborted invocation commits no state). -/
theorem c9_small_amount_fails (c : Ctx) (w : PaymentOrchestrator.World)
    (tid : String) (payer payee merchant : Address) (amount : Int)
    (mbps lock : Nat)
    (hap : c.auth payer = true) (hao : c.auth w.loyalty.owner = true)
    (h0 : 0 < amount) (h100 : amount < 100)
    (hfee : w.processor.platform_fee_bps + mbps < 10000) :
    PaymentOrchestrator.process_simple_payment c w tid payer payee amount
        merchant mbps = .error (.loyaltyErr .InvalidPoints) ∧
    PaymentOrchestrator.process_escrow_payment c w tid payer payee amount lock
        = .error (.loyaltyErr .InvalidPoints) := by
  have hneg : ¬ (amount ≤ 0) := not_le.mpr h0
  have hpts := calculate_loyalty_points_eq_zero amount h0 h100
  have haw := award_points_zero_fails c w.loyalty payer tid hao
  have ht : amount.toNat < 100 := by omega
  have hrange : amount.toNat < 2 ^ 127 := by rw [two_pow_127_eq]; omega
  have hbp : amount.toNat * w.processor.platform_fee_bps < U128MOD := by
    have h1 : amount.toNat * w.processor.platform_fee_bps ≤ amount.toNat * 10000 :=
      Nat.mul_le_mul_left _ (by omega)
    rw [U128MOD_eq]; omega
  have hbm : amount.toNat * mbps < U128MOD := by
    have h1 : amount.toNat * mbps ≤ amount.toNat * 10000 :=
      Nat.mul_le_mul_left _ (by omega)
    rw [U128MOD_eq]; omega
  have hfp := fee_calc_exact amount w.processor.platform_fee_bps h0 hrange hbp
  have hfm := fee_calc_exact amount mbps h0 hrange hbm
  have hsumNat := fee_floor_sum_lt amount.toNat w.processor.platform_fee_bps mbps
    (by omega) hfee
  have hsum : PaymentProcessor.fee_calc amount w.processor.platform_fee_bps
      + PaymentProcessor.fee_calc amount mbps < amount := by
    rw [hfp, hfm]; omega
  have hnf : ¬ (amount ≤ PaymentProcessor.fee_calc amount
      w.processor.platform_fee_bps + PaymentProcessor.fee_calc amount mbps) :=
    not_le.mpr hsum
  constructor
  · cases hpp : PaymentProcessor.process_payment c w.processor payer payee amount
        merchant mbps tid with
    | error e =>
      simp [PaymentProcessor.process_payment, hap, hneg, hnf] at hpp
    | ok p =>
      simp [PaymentOrchestrator.process_simple_payment, hap, hneg, hpp, hpts, haw]
  · cases hce : EscrowManager.create_escrow c w.escrow tid payer w.payment_token
        amount lock with
    | error e =>
      simp [EscrowManager.create_escrow, hap, hneg] at hce
    | ok es =>
      simp [PaymentOrchestrator.process_escrow_payment, hap, hneg, hce, hpts, haw]

/-- **C9 witness**: the theorem applied to the fresh system with amount 50
(platform 100 bps, merchant 200 bps). -/
theorem c9_witness :
    ((ctxAll 0).auth 1 = true) ∧ ((ctxAll 0).auth baseWorld.loyalty.owner = true) ∧
    ((0 : Int) < 50) ∧ ((50 : Int) < 100) ∧
    (baseWorld.processor.platform_fee_bps + 200 < 10000) ∧
    (PaymentOrchestrator.process_simple_payment (ctxAll 0) baseWorld "t9" 1 2 50
        3 200 = .error (.loyaltyErr .InvalidPoints) ∧
     PaymentOrchestrator.process_escrow_payment (ctxAll 0) baseWorld "t9" 1 2 50
        100 = .error (.loyaltyErr .InvalidPoints)) :=
  ⟨rfl, rfl, by decide, by decide, by decide,
   c9_small_amount_fails (ctxAll 0) baseWorld "t9" 1 2 3 50 200 100 rfl rfl
     (by decide) (by decide) (by decide)⟩

/-- Structure of a successful `award_points`: the freshly issued NFT's token
id is the (wrapping) incremented counter, the counter is incremented, and
the reward map gains exactly that token. -/
theorem award_points_ok_spec (c : Ctx) (s : LoyaltyProgram.LoyaltyState)
    (customer : Address) (tid : String) (pts : Nat)
    (s' : LoyaltyProgram.LoyaltyState) (tok : Nat)
    (h : LoyaltyProgram.award_points c s customer tid pts = .ok (s', tok)) :
    tok = (s.total_rewards + 1) % U32MOD ∧
    s'.total_rewards = (s.total_rewards + 1) % U32MOD ∧
    s'.issued_rewards = s.issued_rewards.set ((s.total_rewards + 1) % U32MOD)
      ⟨(s.total_rewards + 1) % U32MOD, customer,
        ((s.customer_points.get customer).getD 0 + pts) % U32MOD,
        LoyaltyProgram.get_tier
          (((s.customer_points.get customer).getD 0 + pts) % U32MOD),
        tid, c.tick⟩ := by
  by_cases hao : c.auth s.owner
  · by_cases hz : pts = 0
    · simp [LoyaltyProgram.award_points, hao, hz] at h
    · simp only [LoyaltyProgram.award_points, LoyaltyProgram.issue_reward_nft,
        hao, hz, not_true_eq_false, if_false, ite_false, Except.ok.injEq,
        Prod.mk.injEq] at h
      obtain ⟨hs, htok⟩ := h
      subst hs
      exact ⟨htok.symm, rfl, rfl⟩
  · simp [LoyaltyProgram.award_points, hao] at h

/-- `redeem_points` never touches the reward map or the counter. -/
theorem redeem_points_preserves_rewards (c : Ctx)
    (s s' : LoyaltyProgram.LoyaltyState) (customer : Address) (pts : Nat)
    (h : LoyaltyProgram.redeem_points c s customer pts = .ok s') :
    s'.issued_rewards = s.issued_rewards ∧
    s'.total_rewards = s.total_rewards := by
  by_cases hao : c.auth s.owner
  · by_cases hlt : (s.customer_points.get customer).getD 0 < pts
    · simp [LoyaltyProgram.redeem_points, hao, hlt] at h
    · by_cases hz : 0 < (s.customer_points.get customer).getD 0 - pts
      · simp only [LoyaltyProgram.redeem_points, hao, hlt, hz,
          not_true_eq_false, if_false, ite_false, ite_true,
          Except.ok.injEq] at h
        subst h; exact ⟨rfl, rfl⟩
      · simp only [LoyaltyProgram.redeem_points, hao, hlt, hz,
          not_true_eq_false, if_false, ite_false, Except.ok.injEq] at h
        subst h; exact ⟨rfl, rfl⟩
  · simp [LoyaltyProgram.redeem_points, hao] at h

/-- Trace invariant of the loyalty contract: as long as the number of
successful awards keeps the `u32` counter from wrapping, the counter equals
the starting counter plus the number of successful awards, and the reward
map holds exactly the token ids from 1 up to the counter. -/
theorem loyalty_run_spec (ops : List (Ctx × LoyaltyProgram.LoyaltyOp))
    (s : LoyaltyProgram.LoyaltyState)
    (hinv : ∀ k, (s.issued_rewards.get k).isSome
        ↔ (1 ≤ k ∧ k ≤ s.total_rewards))
    (hbound : s.total_rewards + (LoyaltyProgram.loyalty_run s ops).2 < U32MOD) :
    (LoyaltyProgram.loyalty_run s ops).1.total_rewards
        = s.total_rewards + (LoyaltyProgram.loyalty_run s ops).2 ∧
    ∀ k, ((LoyaltyProgram.loyalty_run s ops).1.issued_rewards.get k).isSome
        ↔ (1 ≤ k ∧ k ≤ s.total_rewards + (LoyaltyProgram.loyalty_run s ops).2) := by
  induction ops generalizing s with
  | nil =>
    constructor
    · simp [LoyaltyProgram.loyalty_run]
    · intro k
      simp only [LoyaltyProgram.loyalty_run, Nat.add_zero]
      exact hinv k
  | cons op ops ih =>
    obtain ⟨c, op⟩ := op
    cases op with
    | award customer tid pts =>
      cases haw : LoyaltyProgram.award_points c s customer tid pts with
      | error e =>
        simp only [LoyaltyProgram.loyalty_run, haw] at hbound ⊢
        exact ih s hinv hbound
      | ok pr =>
        obtain ⟨s', tok⟩ := pr
        have hspec := award_points_ok_spec c s customer tid pts s' tok haw
        simp only [LoyaltyProgram.loyalty_run, haw] at hbound ⊢
        have hnw : s.total_rewards + 1 < U32MOD := by omega
        have htok : tok = s.total_rewards + 1 := by
          rw [hspec.1, Nat.mod_eq_of_lt hnw]
        have htot : s'.total_rewards = s.total_rewards + 1 := by
          rw [hspec.2.1, Nat.mod_eq_of_lt hnw]
        have hinv' : ∀ k, (s'.issued_rewards.get k).isSome
            ↔ (1 ≤ k ∧ k ≤ s'.total_rewards) := by
          intro k
          rw [hspec.2.2, htot, Nat.mod_eq_of_lt hnw]
          by_cases hk : k = s.total_rewards + 1
          · subst hk
            rw [SMap.get_set_same]
            simp
          · rw [SMap.get_set_ne _ _ _ _ hk, hinv k]
            omega
        have hb' : s'.total_rewards + (LoyaltyProgram.loyalty_run s' ops).2
            < U32MOD := by omega
        obtain ⟨ih1, ih2⟩ := ih s' hinv' hb'
        constructor
        · rw [ih1, htot]; omega
        · intro k
          rw [ih2 k, htot]
          omega
    | redeem customer pts =>
      cases hrd : LoyaltyProgram.redeem_points c s customer pts with
      | error e =>
        simp only [LoyaltyProgram.loyalty_run, hrd] at hbound ⊢
        exact ih s hinv hbound
      | ok s' =>
        have hpres := redeem_points_preserves_rewards c s s' customer pts hrd
        simp only [LoyaltyProgram.loyalty_run, hrd] at hbound ⊢
        have hinv' : ∀ k, (s'.issued_rewards.get k).isSome
            ↔ (1 ≤ k ∧ k ≤ s'.total_rewards) := by
          intro k; rw [hpres.1, hpres.2]; exact hinv k
        have hb' : s'.total_rewards + (LoyaltyProgram.loyalty_run s' ops).2
            < U32MOD := by rw [hpres.2]; exact hbound
        obtain ⟨ih1, ih2⟩ := ih s' hinv' hb'
        constructor
        · rw [ih1, hpres.2]
        · intro k
          rw [ih2 k, hpres.2]

/-- **C10 (confirmed).**  Starting from the freshly constructed loyalty
contract, for every trace of `award_points` / `redeem_points` calls whose
number of successful awards stays within the `u32` counter, the stored
total-rewards counter equals the number of reward NFTs ever issued and the
issued token ids are exactly 1..counter (consecutive from 1); moreover each
successful `award_points` issues exactly one NFT whose token id is the
previous counter plus one, increments the counter by one, and returns that
token id. -/
theorem c10_reward_counter_invariant (owner : Address)
    (ops : List (Ctx × LoyaltyProgram.LoyaltyOp))
    (hn : (LoyaltyProgram.loyalty_run (LoyaltyProgram.constructor owner) ops).2
        < U32MOD) :
    (LoyaltyProgram.loyalty_run (LoyaltyProgram.constructor owner) ops).1.total_rewards
        = (LoyaltyProgram.loyalty_run (LoyaltyProgram.constructor owner) ops).2 ∧
    (∀ k, ((LoyaltyProgram.loyalty_run (LoyaltyProgram.constructor owner)
            ops).1.issued_rewards.get k).isSome
        ↔ (1 ≤ k ∧
           k ≤ (LoyaltyProgram.loyalty_run (LoyaltyProgram.constructor owner)
              ops).2)) ∧
    (∀ (c : Ctx) (s : LoyaltyProgram.LoyaltyState) (customer : Address)
        (tid : String) (pts : Nat) (s' : LoyaltyProgram.LoyaltyState) (tok : Nat),
      s.total_rewards + 1 < U32MOD →
      LoyaltyProgram.award_points c s customer tid pts = .ok (s', tok) →
      tok = s.total_rewards + 1 ∧
      s'.total_rewards = s.total_rewards + 1 ∧
      (s'.issued_rewards.get tok).isSome = true ∧
      (∀ k, k ≠ tok → s'.issued_rewards.get k = s.issued_rewards.get k)) := by
  have hinv0 : ∀ k, ((LoyaltyProgram.constructor owner).issued_rewards.get k).isSome
      ↔ (1 ≤ k ∧ k ≤ (LoyaltyProgram.constructor owner).total_rewards) := by
    intro k
    simp only [LoyaltyProgram.constructor, SMap.empty, SMap.get,
      Option.isSome_none, Bool.false_eq_true, false_iff]
    omega
  have hrun := loyalty_run_spec ops (LoyaltyProgram.constructor owner) hinv0
    (by simpa [LoyaltyProgram.constructor] using hn)
  refine ⟨?_, ?_, ?_⟩
  · simpa [LoyaltyProgram.constructor] using hrun.1
  · intro k
    simpa [LoyaltyProgram.constructor] using hrun.2 k
  · intro c s customer tid pts s' tok hnw haw
    have hspec := award_points_ok_spec c s customer tid pts s' tok haw
    have htok : tok = s.total_rewards + 1 := by
      rw [hspec.1, Nat.mod_eq_of_lt hnw]
    refine ⟨htok, by rw [hspec.2.1, Nat.mod_eq_of_lt hnw], ?_, ?_⟩
    · rw [hspec.2.2, htok, Nat.mod_eq_of_lt hnw, SMap.get_set_same]
      rfl
    · intro k hk
      rw [hspec.2.2, Nat.mod_eq_of_lt hnw]
      exact SMap.get_set_ne _ _ _ _ (by omega)

/-- **C10 witness**: the invariant applied to the concrete trace `c10_ops`
(two successful awards around a redemption; two NFTs issued). -/
theorem c10_witness :
    ((LoyaltyProgram.loyalty_run (LoyaltyProgram.constructor 0) c10_ops).2
        < U32MOD) ∧
    ((LoyaltyProgram.loyalty_run (LoyaltyProgram.constructor 0)
          c10_ops).1.total_rewards
        = (LoyaltyProgram.loyalty_run (LoyaltyProgram.constructor 0) c10_ops).2 ∧
     (∀ k, ((LoyaltyProgram.loyalty_run (LoyaltyProgram.constructor 0)
             c10_ops).1.issued_rewards.get k).isSome
         ↔ (1 ≤ k ∧
            k ≤ (LoyaltyProgram.loyalty_run (LoyaltyProgram.constructor 0)
               c10_ops).2)) ∧
     (∀ (c : Ctx) (s : LoyaltyProgram.LoyaltyState) (customer : Address)
         (tid : String) (pts : Nat) (s' : LoyaltyProgram.LoyaltyState) (tok : Nat),
       s.total_rewards + 1 < U32MOD →
       LoyaltyProgram.award_points c s customer tid pts = .ok (s', tok) →
       tok = s.total_rewards + 1 ∧
       s'.total_rewards = s.total_rewards + 1 ∧
       (s'.issued_rewards.get tok).isSome = true ∧
       (∀ k, k ≠ tok → s'.issued_rewards.get k = s.issued_rewards.get k))) :=
  ⟨by decide, c10_reward_counter_invariant 0 c10_ops (by decide)⟩
